import Mathlib

/-!
# Verification of MPD's asynchronous input-streaming layer

Shallow embedding of the ring buffer (`src/util/CircularBuffer.hxx`) and of
the NFS-backed asynchronous input stream
(`src/input/plugins/NfsInputPlugin.cxx` over `src/input/AsyncInputStream.hxx`),
with proofs of the specified properties.

Machine integers (`size_type`, `uint64_t`, `offset_type`) are modelled as
`Nat`.  All subtractions below are performed only under the documented
invariants `head < capacity` and `tail < capacity` (asserted by the C++
code), under which no unsigned wrap-around can occur, so `Nat` subtraction
agrees with the C++ unsigned arithmetic.
-/

set_option autoImplicit false

/-! ## Ring buffer: `src/util/CircularBuffer.hxx`

The buffer does not own memory; only the indices `head` (next index to be
read) and `tail` (next index to be written) and the fixed `capacity` are
state.  The element data itself is irrelevant to the indexing claims, so the
embedding carries the indices only; the windows returned by `Write()` and
`Read()` are represented by their start index and size. -/

structure CircularBuffer where
  /-- The next index to be read. -/
  head : Nat
  /-- The next index to be written to. -/
  tail : Nat
  /-- The fixed capacity (a `const` member in the source). -/
  capacity : Nat
  deriving DecidableEq, Repr

namespace CircularBuffer

/-- `Next(i)`: `i + 1 == capacity ? 0 : i + 1`. -/
def Next (b : CircularBuffer) (i : Nat) : Nat :=
  if i + 1 = b.capacity then 0 else i + 1

/-- `empty()`: `head == tail`. -/
def isEmpty (b : CircularBuffer) : Bool :=
  b.head == b.tail

/-- `IsFull()`: `Next(tail) == head`. -/
def IsFull (b : CircularBuffer) : Bool :=
  b.Next b.tail == b.head

/-- `GetSize()`: `head <= tail ? tail - head : capacity - head + tail`. -/
def GetSize (b : CircularBuffer) : Nat :=
  if b.head ≤ b.tail then b.tail - b.head else b.capacity - b.head + b.tail

/-- `GetSpace()`: `(head <= tail ? capacity - tail + head : head - tail) - 1`. -/
def GetSpace (b : CircularBuffer) : Nat :=
  (if b.head ≤ b.tail then b.capacity - b.tail + b.head else b.head - b.tail) - 1

/-- The `end` index computed by `Write()`:
`tail < head ? head - 1 : capacity - (head == 0)`. -/
def writeEnd (b : CircularBuffer) : Nat :=
  if b.tail < b.head then b.head - 1
  else b.capacity - (if b.head = 0 then 1 else 0)

/-- `Write()` returns `Range(data + tail, end - tail)`: this is the start
index of that window. -/
def writeStart (b : CircularBuffer) : Nat := b.tail

/-- `Write()` returns `Range(data + tail, end - tail)`: this is the size of
that window. -/
def writeSize (b : CircularBuffer) : Nat := b.writeEnd - b.tail

/-- `Append(n)`: `tail += n; if (tail == capacity) tail = 0;`. -/
def Append (b : CircularBuffer) (n : Nat) : CircularBuffer :=
  if b.tail + n = b.capacity then { b with tail := 0 }
  else { b with tail := b.tail + n }

/-- `Read()` returns `Range(data + head, (tail < head ? capacity : tail) - head)`:
this is the start index of that window. -/
def readStart (b : CircularBuffer) : Nat := b.head

/-- `Read()` returns `Range(data + head, (tail < head ? capacity : tail) - head)`:
this is the size of that window. -/
def readSize (b : CircularBuffer) : Nat :=
  (if b.tail < b.head then b.capacity else b.tail) - b.head

/-- `Consume(n)`: `head += n; if (head == capacity) head = 0;`. -/
def Consume (b : CircularBuffer) (n : Nat) : CircularBuffer :=
  if b.head + n = b.capacity then { b with head := 0 }
  else { b with head := b.head + n }

/-- The state invariant asserted throughout the source:
`head < capacity` and `tail < capacity`. -/
def Valid (b : CircularBuffer) : Prop :=
  b.head < b.capacity ∧ b.tail < b.capacity

instance (b : CircularBuffer) : Decidable b.Valid := by
  unfold Valid; infer_instance

/-- A guarded operation sequence: `Append n` only with `n` within the window
returned by `Write()`, `Consume n` only with `n` within the window returned
by `Read()` (`Write()`/`Read()` themselves do not change the state). -/
inductive Reachable : CircularBuffer → CircularBuffer → Prop
  | refl (b : CircularBuffer) : Reachable b b
  | append {b b' : CircularBuffer} (n : Nat) (hn : n ≤ b'.writeSize)
      (h : Reachable b b') : Reachable b (b'.Append n)
  | consume {b b' : CircularBuffer} (n : Nat) (hn : n ≤ b'.readSize)
      (h : Reachable b b') : Reachable b (b'.Consume n)

theorem size_add_space (b : CircularBuffer) (h : b.Valid) :
    b.GetSize + b.GetSpace = b.capacity - 1 := by
  obtain ⟨h1, h2⟩ := h
  unfold GetSize GetSpace
  split_ifs <;> omega

theorem append_capacity (b : CircularBuffer) (n : Nat) :
    (b.Append n).capacity = b.capacity := by
  unfold Append; split_ifs <;> rfl

theorem consume_capacity (b : CircularBuffer) (n : Nat) :
    (b.Consume n).capacity = b.capacity := by
  unfold Consume; split_ifs <;> rfl

theorem append_valid (b : CircularBuffer) (h : b.Valid) (n : Nat)
    (hn : n ≤ b.writeSize) : (b.Append n).Valid := by
  obtain ⟨h1, h2⟩ := h
  unfold writeSize writeEnd at hn
  unfold Append Valid
  split_ifs at hn ⊢ <;> simp_all <;> omega

theorem consume_valid (b : CircularBuffer) (h : b.Valid) (n : Nat)
    (hn : n ≤ b.readSize) : (b.Consume n).Valid := by
  obtain ⟨h1, h2⟩ := h
  unfold readSize at hn
  unfold Consume Valid
  split_ifs at hn ⊢ <;> simp_all <;> omega

theorem reachable_valid {b b' : CircularBuffer} (h : b.Valid)
    (hr : Reachable b b') : b'.Valid := by
  induction hr with
  | refl => exact h
  | append n hn _ ih => exact append_valid _ ih n hn
  | consume n hn _ ih => exact consume_valid _ ih n hn

end CircularBuffer

/-- **C1.** Ring buffer conservation: for every state with `head < capacity`
and `tail < capacity`, `GetSize() + GetSpace() == capacity - 1`; consequently,
in any sequence of `Write`/`Append(n)`/`Read`/`Consume(n)` operations whose
commits stay within the windows returned, the identity holds after every
operation. -/
theorem circular_buffer_conservation (b : CircularBuffer) (h : b.Valid) :
    b.GetSize + b.GetSpace = b.capacity - 1 ∧
    ∀ b', CircularBuffer.Reachable b b' →
      b'.GetSize + b'.GetSpace = b'.capacity - 1 := by
  refine ⟨CircularBuffer.size_add_space b h, fun b' hr => ?_⟩
  exact CircularBuffer.size_add_space b' (CircularBuffer.reachable_valid h hr)

/-- Witness for C1: the conservation law evaluated at the concrete valid
state `head = 0, tail = 0, capacity = 4`. -/
theorem circular_buffer_conservation_witness :
    (CircularBuffer.mk 0 0 4).Valid ∧
    ((CircularBuffer.mk 0 0 4).GetSize + (CircularBuffer.mk 0 0 4).GetSpace =
        (CircularBuffer.mk 0 0 4).capacity - 1 ∧
      ∀ b', CircularBuffer.Reachable (CircularBuffer.mk 0 0 4) b' →
        b'.GetSize + b'.GetSpace = b'.capacity - 1) :=
  ⟨by decide, circular_buffer_conservation (CircularBuffer.mk 0 0 4) (by decide)⟩

/-- **C7.** Empty/full disambiguation: for all `head, tail < capacity`, the
buffer is empty (`head == tail`) iff `GetSize() == 0`; `IsFull()` holds iff
`GetSpace() == 0` iff `GetSize() == capacity - 1`; and no state satisfying
the invariant has `GetSize() == capacity` (one cell is always sacrificed, so
usable capacity is `capacity - 1`). -/
theorem circular_buffer_empty_full (b : CircularBuffer) (h : b.Valid) :
    (b.head = b.tail ↔ b.GetSize = 0) ∧
    (b.IsFull = true ↔ b.GetSpace = 0) ∧
    (b.IsFull = true ↔ b.GetSize = b.capacity - 1) ∧
    b.GetSize < b.capacity := by
  obtain ⟨h1, h2⟩ := h
  unfold CircularBuffer.IsFull CircularBuffer.Next CircularBuffer.GetSize
    CircularBuffer.GetSpace
  simp only [beq_iff_eq]
  split_ifs <;> refine ⟨?_, ?_, ?_, ?_⟩ <;> omega

/-- Witness for C7: the empty/full characterisation evaluated at the concrete
valid state `head = 2, tail = 1, capacity = 4`. -/
theorem circular_buffer_empty_full_witness :
    (CircularBuffer.mk 2 1 4).Valid ∧
    (((CircularBuffer.mk 2 1 4).head = (CircularBuffer.mk 2 1 4).tail ↔
        (CircularBuffer.mk 2 1 4).GetSize = 0) ∧
      ((CircularBuffer.mk 2 1 4).IsFull = true ↔
        (CircularBuffer.mk 2 1 4).GetSpace = 0) ∧
      ((CircularBuffer.mk 2 1 4).IsFull = true ↔
        (CircularBuffer.mk 2 1 4).GetSize = (CircularBuffer.mk 2 1 4).capacity - 1) ∧
      (CircularBuffer.mk 2 1 4).GetSize < (CircularBuffer.mk 2 1 4).capacity) :=
  ⟨by decide, circular_buffer_empty_full (CircularBuffer.mk 2 1 4) (by decide)⟩

/-- Counterexample for C8 as stated: at `head = 1, tail = 1, capacity = 4`
the window returned by `Write()` has size `3`, which *equals* `GetSpace()`,
although neither `tail < head` nor `head == 0` holds — so the claimed
characterisation "size equals `GetSpace()` exactly when `tail < head` or
`head == 0`, and is otherwise strictly smaller" is false. -/
theorem circular_buffer_write_window_counterexample :
    (CircularBuffer.mk 1 1 4).Valid ∧
    (CircularBuffer.mk 1 1 4).writeSize = (CircularBuffer.mk 1 1 4).GetSpace ∧
    ¬((CircularBuffer.mk 1 1 4).tail < (CircularBuffer.mk 1 1 4).head ∨
      (CircularBuffer.mk 1 1 4).head = 0) := by
  decide

/-- **C8 (amended).** Write window contract: for every valid buffer state,
`Write()` returns the contiguous window starting at index `tail` whose size
never exceeds `GetSpace()`; the size equals `GetSpace()` exactly when the
free region does not wrap past the physical end of the storage, i.e. when
`tail < head` or `head <= 1` (for `head == 1` the only cell before `head` is
the sacrificed cell, so nothing writable wraps), and is otherwise the
strictly smaller contiguous prefix ending at the physical end. -/
theorem circular_buffer_write_window (b : CircularBuffer) (h : b.Valid) :
    b.writeStart = b.tail ∧
    b.writeSize ≤ b.GetSpace ∧
    (b.writeSize = b.GetSpace ↔ (b.tail < b.head ∨ b.head ≤ 1)) := by
  obtain ⟨h1, h2⟩ := h
  unfold CircularBuffer.writeStart CircularBuffer.writeSize
    CircularBuffer.writeEnd CircularBuffer.GetSpace
  split_ifs <;> refine ⟨rfl, ?_, ?_⟩ <;> omega

/-- Witness for C8 (amended): the write-window contract evaluated at the
concrete valid state `head = 2, tail = 3, capacity = 5` (a wrapping free
region, strictly smaller window). -/
theorem circular_buffer_write_window_witness :
    (CircularBuffer.mk 2 3 5).Valid ∧
    ((CircularBuffer.mk 2 3 5).writeStart = (CircularBuffer.mk 2 3 5).tail ∧
      (CircularBuffer.mk 2 3 5).writeSize ≤ (CircularBuffer.mk 2 3 5).GetSpace ∧
      ((CircularBuffer.mk 2 3 5).writeSize = (CircularBuffer.mk 2 3 5).GetSpace ↔
        ((CircularBuffer.mk 2 3 5).tail < (CircularBuffer.mk 2 3 5).head ∨
          (CircularBuffer.mk 2 3 5).head ≤ 1))) :=
  ⟨by decide, circular_buffer_write_window (CircularBuffer.mk 2 3 5) (by decide)⟩

/-- **C9.** Commit semantics: for every `n` within the window returned by
`Write()` and `m` within the window returned by `Read()`, the assertions of
`Append`/`Consume` hold, `Append(n)` sets `tail` to `tail + n` wrapping to
`0` precisely when `tail + n == capacity` and leaves `head` unchanged, and
symmetrically `Consume(m)` sets `head` to `head + m` wrapping to `0`
precisely when `head + m == capacity` and leaves `tail` unchanged. -/
theorem circular_buffer_commit (b : CircularBuffer) (h : b.Valid)
    (n m : Nat) (hn : n ≤ b.writeSize) (hm : m ≤ b.readSize) :
    (n < b.capacity ∧ b.tail + n ≤ b.capacity ∧
      (b.head ≤ b.tail ∨ b.tail + n < b.head)) ∧
    (b.Append n).tail = (if b.tail + n = b.capacity then 0 else b.tail + n) ∧
    (b.Append n).head = b.head ∧
    (m < b.capacity ∧ b.head + m ≤ b.capacity ∧
      (b.tail < b.head ∨ b.head + m ≤ b.tail)) ∧
    (b.Consume m).head = (if b.head + m = b.capacity then 0 else b.head + m) ∧
    (b.Consume m).tail = b.tail := by
  obtain ⟨h1, h2⟩ := h
  unfold CircularBuffer.writeSize CircularBuffer.writeEnd at hn
  unfold CircularBuffer.readSize at hm
  unfold CircularBuffer.Append CircularBuffer.Consume
  split_ifs at hn hm ⊢ <;> simp_all <;> omega

/-- Witness for C9: commit semantics evaluated at the concrete valid state
`head = 1, tail = 3, capacity = 4` with `n = 1` (which wraps `tail` to `0`)
and `m = 2`. -/
theorem circular_buffer_commit_witness :
    (CircularBuffer.mk 1 3 4).Valid ∧ 1 ≤ (CircularBuffer.mk 1 3 4).writeSize ∧
    2 ≤ (CircularBuffer.mk 1 3 4).readSize ∧
    ((1 < (CircularBuffer.mk 1 3 4).capacity ∧
        (CircularBuffer.mk 1 3 4).tail + 1 ≤ (CircularBuffer.mk 1 3 4).capacity ∧
        ((CircularBuffer.mk 1 3 4).head ≤ (CircularBuffer.mk 1 3 4).tail ∨
          (CircularBuffer.mk 1 3 4).tail + 1 < (CircularBuffer.mk 1 3 4).head)) ∧
      ((CircularBuffer.mk 1 3 4).Append 1).tail =
        (if (CircularBuffer.mk 1 3 4).tail + 1 = (CircularBuffer.mk 1 3 4).capacity
          then 0 else (CircularBuffer.mk 1 3 4).tail + 1) ∧
      ((CircularBuffer.mk 1 3 4).Append 1).head = (CircularBuffer.mk 1 3 4).head ∧
      (2 < (CircularBuffer.mk 1 3 4).capacity ∧
        (CircularBuffer.mk 1 3 4).head + 2 ≤ (CircularBuffer.mk 1 3 4).capacity ∧
        ((CircularBuffer.mk 1 3 4).tail < (CircularBuffer.mk 1 3 4).head ∨
          (CircularBuffer.mk 1 3 4).head + 2 ≤ (CircularBuffer.mk 1 3 4).tail)) ∧
      ((CircularBuffer.mk 1 3 4).Consume 2).head =
        (if (CircularBuffer.mk 1 3 4).head + 2 = (CircularBuffer.mk 1 3 4).capacity
          then 0 else (CircularBuffer.mk 1 3 4).head + 2) ∧
      ((CircularBuffer.mk 1 3 4).Consume 2).tail = (CircularBuffer.mk 1 3 4).tail) :=
  ⟨by decide, by decide, by decide,
    circular_buffer_commit (CircularBuffer.mk 1 3 4) (by decide) 1 2
      (by decide) (by decide)⟩

/-! ## Asynchronous NFS input stream

`src/input/plugins/NfsInputPlugin.cxx` implements `NfsInputStream` on top of
`AsyncInputStream` (`src/input/AsyncInputStream.hxx`).  The virtual methods
`DoRead`, `DoResume`, `DoSeek`, `OnNfsFileOpen`, `OnNfsFileRead` and
`OnNfsFileError` are translated below directly from the source.  The
`AsyncInputStream` helpers they call (`Pause`, `SeekDone`, `SetReady`,
`InvokeOnAvailable`, `AppendToBuffer`, `Read`) are declared in
`AsyncInputStream.hxx` but defined in `AsyncInputStream.cxx`, which is not
part of the sources; those helpers are modelled from the spec, as noted on
each definition.  The ring buffer of the stream is represented by its
*contents* — the list of buffered bytes between `head` and `tail` — plus its
fixed capacity, so that `GetBufferSpace() = capacity - 1 - length`
(`CircularBuffer::GetSpace` under the conservation law proved above) and
`IsBufferFull()` iff the space is zero (`CircularBuffer::IsFull`, claim C7).
Effects on the backend file reader and wake-ups of the consumer are recorded
as an explicit list of emitted actions. -/

/-- `NFS_MAX_BUFFERED` (`NfsInputPlugin.cxx`): size of the stream buffer. -/
def NFS_MAX_BUFFERED : Nat := 512 * 1024

/-- `SeekState` from `AsyncInputStream.hxx`: `NONE, SCHEDULED, PENDING`. -/
inductive SeekState where
  | none
  | scheduled
  | pending
  deriving DecidableEq, Repr

/-- An observable effect emitted by an I/O-thread transition: a request to
the backend `NfsFileReader` (`readReq`, `cancelRead`, `closeFile`,
`openFile`) or a wake-up of the consumer thread (`wakeSeekDone` via
`SeekDone()`, `wakeReady` via `SetReady()`, `wakeAvailable` via
`InvokeOnAvailable()`). -/
inductive Act where
  | readReq (off len : Nat)
  | cancelRead
  | closeFile
  | openFile
  | wakeSeekDone
  | wakeReady
  | wakeAvailable
  deriving DecidableEq, Repr

/-- `Act.readReq` recogniser, used to state which transitions issue reads. -/
def Act.isReadReq : Act → Bool
  | .readReq _ _ => true
  | _ => false

/-- The state of one `NfsInputStream`: the `InputStream`/`AsyncInputStream`
fields visible in `src/input/AsyncInputStream.hxx` plus the fields of
`NfsInputStream` itself.  Bytes are modelled as `Nat`, the postponed
`std::exception_ptr` as an `Option Nat` error code. -/
structure NfsStream where
  /-- Fixed buffer capacity (`NFS_MAX_BUFFERED` for NFS streams). -/
  cap : Nat
  /-- Contents of the ring buffer, in FIFO order (`head` to `tail`). -/
  buffer : List Nat
  /-- `AsyncInputStream::open`. -/
  isOpen : Bool
  /-- `AsyncInputStream::paused`. -/
  paused : Bool
  /-- `InputStream::ready` (set by `SetReady()`). -/
  ready : Bool
  /-- `AsyncInputStream::seek_state`. -/
  seekState : SeekState
  /-- `AsyncInputStream::postponed_exception`. -/
  postponed : Option Nat
  /-- `AsyncInputStream::tag` (the pending `Tag`, as an opaque code). -/
  pendingTag : Option Nat
  /-- `InputStream::size` (total size of the file, from `OnNfsFileOpen`). -/
  size : Nat
  /-- `InputStream::offset` (the public stream offset). -/
  offset : Nat
  /-- `InputStream::seekable`. -/
  seekable : Bool
  /-- `NfsInputStream::next_offset` (the backend read cursor). -/
  next_offset : Nat
  /-- `NfsInputStream::reconnect_on_resume`. -/
  reconnect_on_resume : Bool
  /-- `NfsInputStream::reconnecting`. -/
  reconnecting : Bool
  /-- Whether the backend `NfsFileReader` is idle (`NfsFileReader::IsIdle`):
  no read in flight. -/
  readerIdle : Bool
  deriving DecidableEq, Repr

namespace NfsStream

/-- `AsyncInputStream::GetBufferSpace()`, i.e. `buffer.GetSpace()`: free
space of the ring buffer, `capacity - 1 - size` by the conservation law. -/
def GetBufferSpace (s : NfsStream) : Nat :=
  s.cap - 1 - s.buffer.length

/-- `AsyncInputStream::IsBufferFull()`, i.e. `buffer.IsFull()`: by claim C7
this is equivalent to `GetSpace() == 0`. -/
def IsBufferFull (s : NfsStream) : Bool :=
  s.GetBufferSpace == 0

/-- `AsyncInputStream::IsPaused()`. -/
def IsPaused (s : NfsStream) : Bool := s.paused

/-- `AsyncInputStream::IsSeekPending()`: `seek_state == SeekState::PENDING`. -/
def IsSeekPending (s : NfsStream) : Bool := s.seekState == SeekState.pending

/-- Modelled from the spec (`AsyncInputStream::Pause()` is defined in
`AsyncInputStream.cxx`, not in the sources): "Pause(): sets `paused=true`
and stops issuing further reads until resumed". -/
def Pause (s : NfsStream) : NfsStream := { s with paused := true }

/-- Modelled from the spec (`AsyncInputStream::SeekDone()` is defined in
`AsyncInputStream.cxx`, not in the sources): seeking has finished, the seek
state returns to `NONE` and the client thread is notified. -/
def SeekDone (s : NfsStream) : NfsStream × List Act :=
  ({ s with seekState := SeekState.none }, [Act.wakeSeekDone])

/-- Modelled from the spec (`InputStream::SetReady()` is not in the
sources): marks the stream ready and wakes the consumer via the
ready-transition. -/
def SetReady (s : NfsStream) : NfsStream × List Act :=
  ({ s with ready := true }, [Act.wakeReady])

/-- Modelled from the spec (`AsyncInputStream::AppendToBuffer()` is defined
in `AsyncInputStream.cxx`, not in the sources): appends the chunk to the
ring buffer — the caller guarantees it fits, see `GetBufferSpace()` — and
signals the consumer. -/
def AppendToBuffer (s : NfsStream) (src : List Nat) : NfsStream × List Act :=
  ({ s with buffer := s.buffer ++ src }, [Act.wakeAvailable])

/-- `NfsInputStream::DoRead()` (`NfsInputPlugin.cxx`):
`remaining = size - next_offset` (as `int64_t`) — return if `<= 0`;
`Pause()` and return if `GetBufferSpace() == 0`; otherwise issue
`NfsFileReader::Read(next_offset, min(min(remaining, 32768), buffer_space))`. -/
def DoRead (s : NfsStream) : NfsStream × List Act :=
  if s.size ≤ s.next_offset then (s, [])
  else if s.GetBufferSpace = 0 then (s.Pause, [])
  else ({ s with readerIdle := false },
    [Act.readReq s.next_offset (min (min (s.size - s.next_offset) 32768) s.GetBufferSpace)])

/-- `NfsInputStream::DoResume()` (`NfsInputPlugin.cxx`): if
`reconnect_on_resume`, clear it, set `reconnecting`, close and reopen the
backend reader; otherwise resume the fill loop with `DoRead()`. -/
def DoResume (s : NfsStream) : NfsStream × List Act :=
  if s.reconnect_on_resume then
    ({ s with reconnect_on_resume := false, reconnecting := true, readerIdle := true },
      [Act.closeFile, Act.openFile])
  else s.DoRead

/-- `NfsInputStream::DoSeek(new_offset)` (`NfsInputPlugin.cxx`):
`NfsFileReader::CancelRead()` (after which the backend is idle, so the
subsequent `if (!IsIdle()) CancelRead()` does not fire again); then
`next_offset = offset = new_offset; SeekDone();` and restart the fill loop
with `DoRead()`. -/
def DoSeek (s : NfsStream) (new_offset : Nat) : NfsStream × List Act :=
  let s1 : NfsStream :=
    { s with readerIdle := true, next_offset := new_offset, offset := new_offset }
  let r2 := s1.SeekDone
  let r3 := r2.1.DoRead
  (r3.1, Act.cancelRead :: (r2.2 ++ r3.2))

/-- `NfsInputStream::OnNfsFileOpen(size)` (`NfsInputPlugin.cxx`): on a
reconnect, just clear `reconnecting` and restart the fill loop; otherwise
set `size`, `seekable = true`, `next_offset = 0`, `SetReady()` and start the
fill loop. -/
def OnNfsFileOpen (s : NfsStream) (newSize : Nat) : NfsStream × List Act :=
  if s.reconnecting then
    let r := ({ s with reconnecting := false } : NfsStream).DoRead
    (r.1, r.2)
  else
    let s1 : NfsStream :=
      { s with size := newSize, seekable := true, next_offset := 0 }
    let r2 := s1.SetReady
    let r3 := r2.1.DoRead
    (r3.1, r2.2 ++ r3.2)

/-- `NfsInputStream::OnNfsFileRead(src)` (`NfsInputPlugin.cxx`): the backend
delivered a chunk (so it is idle again); `AppendToBuffer(src)`,
`next_offset += src.size()`, then `DoRead()`. -/
def OnNfsFileRead (s : NfsStream) (src : List Nat) : NfsStream × List Act :=
  let r1 := ({ s with readerIdle := true } : NfsStream).AppendToBuffer src
  let s2 : NfsStream := { r1.1 with next_offset := r1.1.next_offset + src.length }
  let r3 := s2.DoRead
  (r3.1, r1.2 ++ r3.2)

/-- `NfsInputStream::OnNfsFileError(e)` (`NfsInputPlugin.cxx`): while
paused, only set `reconnect_on_resume` and return; otherwise store the
postponed exception and wake the consumer via `SeekDone()` if a seek is
pending, `SetReady()` if the stream is not yet ready, or
`InvokeOnAvailable()` otherwise. -/
def OnNfsFileError (s : NfsStream) (e : Nat) : NfsStream × List Act :=
  if s.IsPaused then
    ({ s with reconnect_on_resume := true }, [])
  else
    let s1 : NfsStream := { s with postponed := some e }
    if s1.IsSeekPending then s1.SeekDone
    else if !s1.ready then s1.SetReady
    else (s1, [Act.wakeAvailable])

/-- `AsyncInputStream::SetClosed()` (`AsyncInputStream.hxx`, in the
sources): `open = false` and nothing else. -/
def SetClosed (s : NfsStream) : NfsStream := { s with isOpen := false }

/-- Outcome of one non-blocking consumer `Read()` attempt. -/
inductive ReadResult where
  | err (e : Nat)
  | bytes (bs : List Nat)
  | eof
  | wouldBlock
  deriving DecidableEq, Repr

/-- Modelled from the spec (`AsyncInputStream::Read()` is defined in
`AsyncInputStream.cxx`, not in the sources): on wake, a postponed error is
cleared and propagated; otherwise available bytes up to the destination
size are copied out and consumed; if the buffer is empty and
`open == false`, zero bytes are returned (end of stream); if the buffer is
empty and the stream is still open, the consumer blocks. -/
def ReadStep (s : NfsStream) (destLen : Nat) : NfsStream × ReadResult :=
  match s.postponed with
  | some e => ({ s with postponed := Option.none }, ReadResult.err e)
  | Option.none =>
    if s.buffer.isEmpty then
      if s.isOpen then (s, ReadResult.wouldBlock) else (s, ReadResult.eof)
    else
      let n := min destLen s.buffer.length
      ({ s with buffer := s.buffer.drop n }, ReadResult.bytes (s.buffer.take n))

end NfsStream

/-- A concrete `NfsInputStream` state used by the witnesses: a ready, open,
unpaused stream of a 100-byte file with the read cursor at offset 50 and an
empty buffer of capacity `NFS_MAX_BUFFERED`. -/
def sampleStream : NfsStream where
  cap := NFS_MAX_BUFFERED
  buffer := []
  isOpen := true
  paused := false
  ready := true
  seekState := SeekState.none
  postponed := Option.none
  pendingTag := Option.none
  size := 100
  offset := 50
  seekable := true
  next_offset := 50
  reconnect_on_resume := false
  reconnecting := false
  readerIdle := true

/-- **C2.** Error-callback policy: if `paused`, `OnNfsFileError(e)` only
sets `reconnect_on_resume` and returns, leaving the postponed exception and
all other state unchanged and waking no one; otherwise it stores `e` as the
postponed error and wakes the consumer by exactly one of `SeekDone()` (seek
pending), `SetReady()` (stream not yet ready) or the general availability
wakeup. -/
theorem on_nfs_file_error_policy (s : NfsStream) (e : Nat) :
    NfsStream.OnNfsFileError s e =
      if s.paused then
        ({ s with reconnect_on_resume := true }, [])
      else if s.seekState = SeekState.pending then
        ({ s with postponed := some e, seekState := SeekState.none },
          [Act.wakeSeekDone])
      else if s.ready = false then
        ({ s with postponed := some e, ready := true }, [Act.wakeReady])
      else
        ({ s with postponed := some e }, [Act.wakeAvailable]) := by
  unfold NfsStream.OnNfsFileError NfsStream.IsPaused NfsStream.IsSeekPending
    NfsStream.SeekDone NfsStream.SetReady
  rcases s with ⟨cap, buffer, isOpen, paused, ready, seekState⟩
  cases paused <;> cases ready <;> cases seekState <;> rfl

/-- **C5.** The backend never over-requests: every read request issued by
`DoRead` starts at `next_offset` and asks for `1 <= nbytes <=
GetBufferSpace()` and at most the bytes remaining to end of file; when
`GetBufferSpace() == 0` no read is issued at all (so an `AppendToBuffer` of
at most `nbytes` always fits). -/
theorem do_read_never_over_requests (s : NfsStream) :
    (∀ off len, Act.readReq off len ∈ (NfsStream.DoRead s).2 →
      off = s.next_offset ∧ 1 ≤ len ∧ len ≤ s.GetBufferSpace ∧
        len ≤ s.size - s.next_offset) ∧
    (s.GetBufferSpace = 0 →
      (NfsStream.DoRead s).2.any Act.isReadReq = false) := by
  unfold NfsStream.DoRead NfsStream.Pause
  split_ifs with h1 h2
  · exact ⟨fun off len h => absurd h (List.not_mem_nil _), fun _ => rfl⟩
  · exact ⟨fun off len h => absurd h (List.not_mem_nil _), fun _ => rfl⟩
  · constructor
    · intro off len h
      simp only [List.mem_singleton, Act.readReq.injEq] at h
      obtain ⟨h3, h4⟩ := h
      subst h3; subst h4
      refine ⟨rfl, ?_, ?_, ?_⟩ <;> omega
    · intro h0
      exact absurd h0 h2

/-- Witness for C5: the no-over-request property evaluated at the concrete
state `sampleStream` (50 bytes remaining, empty buffer), whose `DoRead`
issues exactly one request. -/
theorem do_read_never_over_requests_witness :
    (∀ off len, Act.readReq off len ∈ (NfsStream.DoRead sampleStream).2 →
      off = sampleStream.next_offset ∧ 1 ≤ len ∧
        len ≤ sampleStream.GetBufferSpace ∧
        len ≤ sampleStream.size - sampleStream.next_offset) ∧
    (sampleStream.GetBufferSpace = 0 →
      (NfsStream.DoRead sampleStream).2.any Act.isReadReq = false) :=
  do_read_never_over_requests sampleStream

/-- Counterexample for C3 as stated: seeking `sampleStream` (a 100-byte
file) to offset `100` runs the cancel and signals `SeekDone()`, but issues
*no* new read — `remaining <= 0` makes `DoRead()` return immediately — so
"a new read is issued starting from the new offset" does not hold for every
execution of `DoSeek`. -/
theorem do_seek_counterexample :
    (NfsStream.DoSeek sampleStream 100).2 = [Act.cancelRead, Act.wakeSeekDone] ∧
    (NfsStream.DoSeek sampleStream 100).2.any Act.isReadReq = false := by
  decide

/-- **C3 (amended).** Deferred seek semantics: `DoSeek(new_offset)` cancels
the backend's in-flight read first (the cancel is the first emitted
action); afterwards `next_offset` and the public `offset` both equal
`new_offset`, the waiting consumer is signalled via `SeekDone()` (the seek
state returns to `NONE`), and a new read starting exactly at the new offset
is issued — provided bytes remain before end of file and the buffer has
space; if the new offset is at or past end of file, or the buffer is full,
no read is issued. -/
theorem do_seek_semantics (s : NfsStream) (newOffset : Nat) :
    (NfsStream.DoSeek s newOffset).2.head? = some Act.cancelRead ∧
    (NfsStream.DoSeek s newOffset).1.next_offset = newOffset ∧
    (NfsStream.DoSeek s newOffset).1.offset = newOffset ∧
    (NfsStream.DoSeek s newOffset).1.seekState = SeekState.none ∧
    Act.wakeSeekDone ∈ (NfsStream.DoSeek s newOffset).2 ∧
    (newOffset < s.size → s.GetBufferSpace ≠ 0 →
      Act.readReq newOffset
          (min (min (s.size - newOffset) 32768) s.GetBufferSpace) ∈
        (NfsStream.DoSeek s newOffset).2) ∧
    (∀ off len, Act.readReq off len ∈ (NfsStream.DoSeek s newOffset).2 →
      off = newOffset) ∧
    (s.size ≤ newOffset ∨ s.GetBufferSpace = 0 →
      (NfsStream.DoSeek s newOffset).2.any Act.isReadReq = false) := by
  simp only [NfsStream.DoSeek, NfsStream.SeekDone, NfsStream.DoRead,
    NfsStream.Pause, NfsStream.GetBufferSpace]
  split_ifs with h1 h2 <;>
    simp_all [Act.isReadReq, List.any_cons]

/-- Witness for C3 (amended): the seek semantics evaluated at the concrete
state `sampleStream` with target offset `60` (mid-file, empty buffer: a
read is issued). -/
theorem do_seek_semantics_witness :
    (NfsStream.DoSeek sampleStream 60).2.head? = some Act.cancelRead ∧
    (NfsStream.DoSeek sampleStream 60).1.next_offset = 60 ∧
    (NfsStream.DoSeek sampleStream 60).1.offset = 60 ∧
    (NfsStream.DoSeek sampleStream 60).1.seekState = SeekState.none ∧
    Act.wakeSeekDone ∈ (NfsStream.DoSeek sampleStream 60).2 ∧
    (60 < sampleStream.size → sampleStream.GetBufferSpace ≠ 0 →
      Act.readReq 60
          (min (min (sampleStream.size - 60) 32768) sampleStream.GetBufferSpace) ∈
        (NfsStream.DoSeek sampleStream 60).2) ∧
    (∀ off len, Act.readReq off len ∈ (NfsStream.DoSeek sampleStream 60).2 →
      off = 60) ∧
    (sampleStream.size ≤ 60 ∨ sampleStream.GetBufferSpace = 0 →
      (NfsStream.DoSeek sampleStream 60).2.any Act.isReadReq = false) :=
  do_seek_semantics sampleStream 60

/-- Counterexample for C4 as stated: deliver the final 5 bytes of a 10-byte
file (`size = 10`, `next_offset = 5`).  The chunk fits and the buffer is far
from full afterwards, yet the backend issues *no* further read (and does not
pause): `DoRead()` returns as soon as `remaining <= 0`.  So "immediately
requests the next chunk unless the buffer is now full" does not hold for
every data callback. -/
theorem on_nfs_file_read_counterexample :
    ((NfsStream.OnNfsFileRead { sampleStream with size := 10, next_offset := 5 }
        [1, 2, 3, 4, 5]).2.any Act.isReadReq = false) ∧
    (NfsStream.OnNfsFileRead { sampleStream with size := 10, next_offset := 5 }
        [1, 2, 3, 4, 5]).1.paused = false ∧
    NfsStream.IsBufferFull
        (NfsStream.OnNfsFileRead { sampleStream with size := 10, next_offset := 5 }
          [1, 2, 3, 4, 5]).1 = false := by
  decide

/-- **C4 (amended).** Data-callback semantics: `OnNfsFileRead(src)` (the
chunk is guaranteed to fit the buffer) appends the bytes of `src` to the
ring buffer, advances `next_offset` by exactly `src.size()`, signals the
consumer, and — when bytes remain before end of file — immediately requests
the next chunk unless the buffer is now full, in which case it calls
`Pause()`; when end of file has been reached, neither a read nor a pause is
performed. -/
theorem on_nfs_file_read_semantics (s : NfsStream) (src : List Nat)
    (_hfit : src.length ≤ s.GetBufferSpace) :
    (NfsStream.OnNfsFileRead s src).1.buffer = s.buffer ++ src ∧
    (NfsStream.OnNfsFileRead s src).1.next_offset = s.next_offset + src.length ∧
    Act.wakeAvailable ∈ (NfsStream.OnNfsFileRead s src).2 ∧
    (s.next_offset + src.length < s.size →
      (NfsStream.GetBufferSpace (NfsStream.OnNfsFileRead s src).1 ≠ 0 →
        Act.readReq (s.next_offset + src.length)
            (min (min (s.size - (s.next_offset + src.length)) 32768)
              (NfsStream.GetBufferSpace (NfsStream.OnNfsFileRead s src).1)) ∈
          (NfsStream.OnNfsFileRead s src).2 ∧
        (NfsStream.OnNfsFileRead s src).1.paused = s.paused) ∧
      (NfsStream.GetBufferSpace (NfsStream.OnNfsFileRead s src).1 = 0 →
        (NfsStream.OnNfsFileRead s src).1.paused = true ∧
        (NfsStream.OnNfsFileRead s src).2.any Act.isReadReq = false)) ∧
    (s.size ≤ s.next_offset + src.length →
      (NfsStream.OnNfsFileRead s src).2.any Act.isReadReq = false ∧
      (NfsStream.OnNfsFileRead s src).1.paused = s.paused) := by
  simp only [NfsStream.OnNfsFileRead, NfsStream.AppendToBuffer,
    NfsStream.DoRead, NfsStream.Pause, NfsStream.GetBufferSpace]
  split_ifs with h1 h2 <;>
    simp_all [Act.isReadReq, List.any_cons]

/-- Witness for C4 (amended): the data-callback semantics evaluated at the
concrete state `sampleStream` with the 3-byte chunk `[7, 7, 7]` (mid-file,
buffer far from full: a follow-up read is issued). -/
theorem on_nfs_file_read_semantics_witness :
    ([7, 7, 7] : List Nat).length ≤ sampleStream.GetBufferSpace ∧
    ((NfsStream.OnNfsFileRead sampleStream [7, 7, 7]).1.buffer =
        sampleStream.buffer ++ [7, 7, 7] ∧
      (NfsStream.OnNfsFileRead sampleStream [7, 7, 7]).1.next_offset =
        sampleStream.next_offset + ([7, 7, 7] : List Nat).length ∧
      Act.wakeAvailable ∈ (NfsStream.OnNfsFileRead sampleStream [7, 7, 7]).2 ∧
      (sampleStream.next_offset + ([7, 7, 7] : List Nat).length < sampleStream.size →
        (NfsStream.GetBufferSpace (NfsStream.OnNfsFileRead sampleStream [7, 7, 7]).1 ≠ 0 →
          Act.readReq (sampleStream.next_offset + ([7, 7, 7] : List Nat).length)
              (min (min (sampleStream.size -
                    (sampleStream.next_offset + ([7, 7, 7] : List Nat).length)) 32768)
                (NfsStream.GetBufferSpace (NfsStream.OnNfsFileRead sampleStream [7, 7, 7]).1)) ∈
            (NfsStream.OnNfsFileRead sampleStream [7, 7, 7]).2 ∧
          (NfsStream.OnNfsFileRead sampleStream [7, 7, 7]).1.paused = sampleStream.paused) ∧
        (NfsStream.GetBufferSpace (NfsStream.OnNfsFileRead sampleStream [7, 7, 7]).1 = 0 →
          (NfsStream.OnNfsFileRead sampleStream [7, 7, 7]).1.paused = true ∧
          (NfsStream.OnNfsFileRead sampleStream [7, 7, 7]).2.any Act.isReadReq = false)) ∧
      (sampleStream.size ≤ sampleStream.next_offset + ([7, 7, 7] : List Nat).length →
        (NfsStream.OnNfsFileRead sampleStream [7, 7, 7]).2.any Act.isReadReq = false ∧
        (NfsStream.OnNfsFileRead sampleStream [7, 7, 7]).1.paused = sampleStream.paused)) :=
  ⟨by decide, on_nfs_file_read_semantics sampleStream [7, 7, 7] (by decide)⟩

/-- **C6.** Closing does not discard buffered data: `SetClosed()` sets only
`open := false` — ring-buffer contents, `paused`, `seek_state`, the pending
tag and the postponed error are all unchanged — so buffered bytes remain
readable after closure; `Read()` keeps serving the remaining buffered bytes
and reports end-of-stream (zero bytes, without blocking) only once the
buffer has drained. -/
theorem set_closed_semantics (s : NfsStream)
    (hp : s.postponed = Option.none) (d : Nat) :
    NfsStream.SetClosed s = { s with isOpen := false } ∧
    (s.buffer ≠ [] →
      (NfsStream.ReadStep (NfsStream.SetClosed s) d).2 =
        NfsStream.ReadResult.bytes (s.buffer.take (min d s.buffer.length)) ∧
      (NfsStream.ReadStep (NfsStream.SetClosed s) d).1.buffer =
        s.buffer.drop (min d s.buffer.length)) ∧
    (s.buffer = [] →
      (NfsStream.ReadStep (NfsStream.SetClosed s) d).2 =
        NfsStream.ReadResult.eof) := by
  unfold NfsStream.SetClosed NfsStream.ReadStep
  refine ⟨rfl, ?_, ?_⟩ <;> intro hb <;> simp_all [List.isEmpty_iff]

/-- Witness for C6: closing `sampleStream` with ten bytes still buffered;
a `Read()` of four bytes serves buffered data, and after the buffer drains
`Read()` reports end-of-stream. -/
theorem set_closed_semantics_witness :
    ({ sampleStream with buffer := [0, 1, 2, 3, 4, 5, 6, 7, 8, 9] } :
        NfsStream).postponed = Option.none ∧
    (NfsStream.SetClosed { sampleStream with buffer := [0, 1, 2, 3, 4, 5, 6, 7, 8, 9] } =
        { ({ sampleStream with buffer := [0, 1, 2, 3, 4, 5, 6, 7, 8, 9] } : NfsStream)
            with isOpen := false } ∧
      (({ sampleStream with buffer := [0, 1, 2, 3, 4, 5, 6, 7, 8, 9] } :
          NfsStream).buffer ≠ [] →
        (NfsStream.ReadStep
            (NfsStream.SetClosed
              { sampleStream with buffer := [0, 1, 2, 3, 4, 5, 6, 7, 8, 9] }) 4).2 =
          NfsStream.ReadResult.bytes
            (({ sampleStream with buffer := [0, 1, 2, 3, 4, 5, 6, 7, 8, 9] } :
                NfsStream).buffer.take
              (min 4 ({ sampleStream with buffer := [0, 1, 2, 3, 4, 5, 6, 7, 8, 9] } :
                NfsStream).buffer.length)) ∧
        (NfsStream.ReadStep
            (NfsStream.SetClosed
              { sampleStream with buffer := [0, 1, 2, 3, 4, 5, 6, 7, 8, 9] }) 4).1.buffer =
          ({ sampleStream with buffer := [0, 1, 2, 3, 4, 5, 6, 7, 8, 9] } :
              NfsStream).buffer.drop
            (min 4 ({ sampleStream with buffer := [0, 1, 2, 3, 4, 5, 6, 7, 8, 9] } :
              NfsStream).buffer.length)) ∧
      (({ sampleStream with buffer := [0, 1, 2, 3, 4, 5, 6, 7, 8, 9] } :
          NfsStream).buffer = [] →
        (NfsStream.ReadStep
            (NfsStream.SetClosed
              { sampleStream with buffer := [0, 1, 2, 3, 4, 5, 6, 7, 8, 9] }) 4).2 =
          NfsStream.ReadResult.eof)) :=
  ⟨rfl, set_closed_semantics
    { sampleStream with buffer := [0, 1, 2, 3, 4, 5, 6, 7, 8, 9] } rfl 4⟩

/-- **C10.** Reconnect preserves the stream position: when a transfer error
arrived while paused (`reconnect_on_resume` set) and `DoResume()` performs
the reconnect — close, then reopen with `reconnecting` set — the reconnect's
successful `OnNfsFileOpen` leaves `size`, `seekable`, `ready` and the read
cursor `next_offset` unchanged (the initialisation path that resets
`next_offset` to `0` and calls `SetReady()` is skipped), so after
reconnection any read issued resumes at exactly the offset reached before
the failure. -/
theorem reconnect_preserves_position (s : NfsStream)
    (h : s.reconnect_on_resume = true) (sz : Nat) :
    (NfsStream.DoResume s).2 = [Act.closeFile, Act.openFile] ∧
    (NfsStream.DoResume s).1.reconnecting = true ∧
    (NfsStream.DoResume s).1.reconnect_on_resume = false ∧
    (NfsStream.DoResume s).1.next_offset = s.next_offset ∧
    (NfsStream.DoResume s).1.size = s.size ∧
    (NfsStream.DoResume s).1.seekable = s.seekable ∧
    (NfsStream.OnNfsFileOpen (NfsStream.DoResume s).1 sz).1.size = s.size ∧
    (NfsStream.OnNfsFileOpen (NfsStream.DoResume s).1 sz).1.seekable = s.seekable ∧
    (NfsStream.OnNfsFileOpen (NfsStream.DoResume s).1 sz).1.next_offset = s.next_offset ∧
    (NfsStream.OnNfsFileOpen (NfsStream.DoResume s).1 sz).1.ready = s.ready ∧
    Act.wakeReady ∉ (NfsStream.OnNfsFileOpen (NfsStream.DoResume s).1 sz).2 ∧
    (∀ off len,
      Act.readReq off len ∈ (NfsStream.OnNfsFileOpen (NfsStream.DoResume s).1 sz).2 →
        off = s.next_offset) := by
  simp only [NfsStream.DoResume, NfsStream.OnNfsFileOpen, NfsStream.DoRead,
    NfsStream.Pause, NfsStream.SetReady, NfsStream.GetBufferSpace, h]
  split_ifs <;> simp_all

/-- Witness for C10: the reconnect-preservation property evaluated at the
concrete state `sampleStream` paused with `reconnect_on_resume` set, the
reconnect reopening the same 100-byte file. -/
theorem reconnect_preserves_position_witness :
    ({ sampleStream with reconnect_on_resume := true, paused := true } :
        NfsStream).reconnect_on_resume = true ∧
    ((NfsStream.DoResume
        { sampleStream with reconnect_on_resume := true, paused := true }).2 =
        [Act.closeFile, Act.openFile] ∧
      (NfsStream.DoResume
        { sampleStream with reconnect_on_resume := true, paused := true }).1.reconnecting = true ∧
      (NfsStream.DoResume
        { sampleStream with reconnect_on_resume := true, paused := true }).1.reconnect_on_resume = false ∧
      (NfsStream.DoResume
        { sampleStream with reconnect_on_resume := true, paused := true }).1.next_offset =
        ({ sampleStream with reconnect_on_resume := true, paused := true } :
          NfsStream).next_offset ∧
      (NfsStream.DoResume
        { sampleStream with reconnect_on_resume := true, paused := true }).1.size =
        ({ sampleStream with reconnect_on_resume := true, paused := true } :
          NfsStream).size ∧
      (NfsStream.DoResume
        { sampleStream with reconnect_on_resume := true, paused := true }).1.seekable =
        ({ sampleStream with reconnect_on_resume := true, paused := true } :
          NfsStream).seekable ∧
      (NfsStream.OnNfsFileOpen
        (NfsStream.DoResume
          { sampleStream with reconnect_on_resume := true, paused := true }).1 100).1.size =
        ({ sampleStream with reconnect_on_resume := true, paused := true } :
          NfsStream).size ∧
      (NfsStream.OnNfsFileOpen
        (NfsStream.DoResume
          { sampleStream with reconnect_on_resume := true, paused := true }).1 100).1.seekable =
        ({ sampleStream with reconnect_on_resume := true, paused := true } :
          NfsStream).seekable ∧
      (NfsStream.OnNfsFileOpen
        (NfsStream.DoResume
          { sampleStream with reconnect_on_resume := true, paused := true }).1 100).1.next_offset =
        ({ sampleStream with reconnect_on_resume := true, paused := true } :
          NfsStream).next_offset ∧
      (NfsStream.OnNfsFileOpen
        (NfsStream.DoResume
          { sampleStream with reconnect_on_resume := true, paused := true }).1 100).1.ready =
        ({ sampleStream with reconnect_on_resume := true, paused := true } :
          NfsStream).ready ∧
      Act.wakeReady ∉
        (NfsStream.OnNfsFileOpen
          (NfsStream.DoResume
            { sampleStream with reconnect_on_resume := true, paused := true }).1 100).2 ∧
      (∀ off len,
        Act.readReq off len ∈
            (NfsStream.OnNfsFileOpen
              (NfsStream.DoResume
                { sampleStream with reconnect_on_resume := true, paused := true }).1 100).2 →
          off = ({ sampleStream with reconnect_on_resume := true, paused := true } :
            NfsStream).next_offset)) :=
  ⟨rfl, reconnect_preserves_position
    { sampleStream with reconnect_on_resume := true, paused := true } rfl 100⟩
